import Mathlib

/-!
Verification of the reactive-LEDs animation engine against its
natural-language specification.

The definitions below are a shallow embedding of the C++ sources:
- LEDPatterns.cpp / LEDPatterns.h (glow-point pool, gentle glow effect,
  transition engine, revision A with in-place blending),
- src/unnamed/part_002 (revision B of LEDPatterns.cpp with explicit
  previous/target transition buffers),
- src/unnamed/part_000 (main loop: sensor debounce, logarithmic intensity
  scaling, exponential smoothing, parameter-update gating).

Machine integers are modelled as Nat (unsigned) or Int (signed) with the
modular or saturating behaviour of the source made explicit.  Calls to the
random-number generator are modelled as explicit adversarial inputs.
-/

namespace ReactiveLeds

/-- MAX_GLOW_POINTS from LEDPatterns.h: capacity of the glow-point pool. -/
def MAX_GLOW_POINTS : Nat := 5

/-- DEBOUNCE_COUNT from main.cpp: consecutive consistent readings required
to change a detection state. -/
def DEBOUNCE_COUNT : Nat := 3

/-- PRESENCE_MIN_VALUE from main.cpp: noise floor for presence readings. -/
def PRESENCE_MIN_VALUE : Nat := 70

/-- PRESENCE_LOG_SCALE_FACTOR from main.cpp. -/
def PRESENCE_LOG_SCALE_FACTOR : Nat := 60

/-- MIN_UPDATE_INTERVAL from main.cpp (milliseconds). -/
def MIN_UPDATE_INTERVAL : Nat := 250

/-- Conversion of a C int expression to uint8_t: value modulo 256
(also for negative arguments, as in the compiled code). -/
def toByte (x : Int) : Nat := (x % 256).toNat

/-- Arduino map macro: (x - inMin) * (outMax - outMin) / (inMax - inMin) + outMin,
with C truncating (toward-zero) integer division. -/
def cmap (x inMin inMax outMin outMax : Int) : Int :=
  (x - inMin) * (outMax - outMin) / (inMax - inMin) + outMin

/-- GlowPoint struct from LEDPatterns.h.  The int8_t state field is 1 while
growing, 0 while stable and -1 while fading. -/
structure GlowPoint where
  pos : Nat
  hue : Nat
  spread : Nat
  maxIntensity : Nat
  currentIntensity : Nat
  state : Int
  active : Bool
deriving DecidableEq

/-- The glow point written into a free slot by LEDPatterns::addGlowPoint:
fields from the arguments, zero current intensity, growing state. -/
def mkGlowPoint (pos hue spread intensity : Nat) : GlowPoint :=
  { pos := pos, hue := hue, spread := spread, maxIntensity := intensity,
    currentIntensity := 0, state := 1, active := true }

/-- LEDPatterns::addGlowPoint: scan the pool for the first inactive slot,
activate it with the given parameters, and return its index; if every slot
is active return the pool unchanged with no index (the C code returns -1). -/
def addGlowPoint (pool : List GlowPoint) (pos hue spread intensity : Nat) :
    List GlowPoint × Option Nat :=
  match pool with
  | [] => ([], none)
  | p :: rest =>
    if p.active then
      let r := addGlowPoint rest pos hue spread intensity
      (p :: r.1, r.2.map (· + 1))
    else
      (mkGlowPoint pos hue spread intensity :: rest, some 0)

/-- Body of LEDPatterns::updateGlowPoint (revision in LEDPatterns.cpp) acting
on a single glow point; speed is the uint8_t speed parameter, rand the value
random8() returns in the stable branch.  The Bool result is the C return
value (true while the glow point stays active). -/
def updateGlowPointP (p : GlowPoint) (speed rand : Nat) : GlowPoint × Bool :=
  if p.active = false then
    (p, false)
  else
    let p1 := if p.state ≠ 1 ∧ p.state ≠ 0 ∧ p.state ≠ -1 then
                { p with state := -1 } else p
    let change := max 1 (speed / 20)
    if p1.state = 1 then
      let n0 := p1.currentIntensity
      let n1 := if 255 - n0 > change then n0 + change else 255
      let n2 := if n1 > p1.maxIntensity then p1.maxIntensity else n1
      let p2 := { p1 with currentIntensity := n2 }
      let p3 := if p2.currentIntensity ≥ p2.maxIntensity then
                  { p2 with state := 0 } else p2
      (p3, true)
    else if p1.state = -1 then
      if p1.currentIntensity ≤ change then
        ({ p1 with active := false }, false)
      else
        ({ p1 with currentIntensity := p1.currentIntensity - change }, true)
    else if p1.state = 0 then
      (if rand < 5 then { p1 with state := -1 } else p1, true)
    else
      (p1, true)

/-- LEDPatterns::updateGlowPoint lifted to the pool at an index. -/
def updateGlowPoint (pool : List GlowPoint) (index speed rand : Nat) :
    List GlowPoint × Bool :=
  match pool[index]? with
  | none => (pool, false)
  | some p =>
    let r := updateGlowPointP p speed rand
    (pool.set index r.1, r.2)

/-- Number of active glow points, as counted by the loop in
LEDPatterns::gentleGlow. -/
def activeCount (pool : List GlowPoint) : Nat :=
  (pool.filter (fun p => p.active)).length

/-- Pool dynamics of LEDPatterns::gentleGlow (revision in LEDPatterns.cpp):
update every active glow point, count the active ones, and when a slot is
free and the spawn roll beats the speed-derived threshold, add a glow point
whose hue, spread and target intensity are the jittered parameters reduced
modulo 256 by the uint8_t argument conversions.  The random outcomes
(per-index stable rolls, spawn roll, position, jitters) are explicit inputs;
the frame-buffer rendering is not part of the pool state. -/
def gentleGlow (pool : List GlowPoint) (hue brightness speed spread : Nat)
    (stableRolls : List Nat) (spawnRoll pos hueVar spreadVar intensityVar : Nat) :
    List GlowPoint :=
  let afterUpdate := (List.range MAX_GLOW_POINTS).foldl
    (fun acc i =>
      if (acc[i]?.map (fun p => p.active)).getD false then
        (updateGlowPoint acc i speed (stableRolls.getD i 0)).1
      else acc) pool
  if activeCount afterUpdate < MAX_GLOW_POINTS then
    let threshold := toByte (cmap (speed : Int) 0 255 250 180)
    if threshold < spawnRoll then
      (addGlowPoint afterUpdate pos
        (toByte ((hue : Int) + (hueVar : Int) - 5))
        (toByte ((spread : Int) + (spreadVar : Int) - 1))
        (toByte ((brightness : Int) - (intensityVar : Int)))).1
    else afterUpdate
  else afterUpdate

/-- The pool as initialized by the LEDPatterns constructor: every slot
inactive (the constructor only clears the active flags; the remaining
fields are modelled as zero). -/
def initPool : List GlowPoint :=
  List.replicate MAX_GLOW_POINTS
    { pos := 0, hue := 0, spread := 0, maxIntensity := 0,
      currentIntensity := 0, state := 0, active := false }

/-- One call into the glow engine: addGlowPoint, updateGlowPoint, or a whole
gentleGlow tick with its random outcomes. -/
inductive GlowOp where
  | add (pos hue spread intensity : Nat)
  | update (index speed rand : Nat)
  | glow (hue brightness speed spread : Nat) (stableRolls : List Nat)
      (spawnRoll pos hueVar spreadVar intensityVar : Nat)

/-- Apply one glow-engine call to the pool. -/
def applyOp (pool : List GlowPoint) : GlowOp → List GlowPoint
  | .add pos hue spread intensity => (addGlowPoint pool pos hue spread intensity).1
  | .update index speed rand => (updateGlowPoint pool index speed rand).1
  | .glow hue brightness speed spread stableRolls spawnRoll pos hueVar spreadVar intensityVar =>
      gentleGlow pool hue brightness speed spread stableRolls spawnRoll pos hueVar
        spreadVar intensityVar

/-- Run a sequence of glow-engine calls from a pool. -/
def runOps (pool : List GlowPoint) (ops : List GlowOp) : List GlowPoint :=
  ops.foldl applyOp pool

lemma addGlowPoint_length (pool : List GlowPoint) (pos hue spread intensity : Nat) :
    (addGlowPoint pool pos hue spread intensity).1.length = pool.length := by
  induction pool with
  | nil => simp [addGlowPoint]
  | cons p rest ih =>
    simp only [addGlowPoint]
    split
    · simpa using ih
    · simp

lemma updateGlowPoint_length (pool : List GlowPoint) (index speed rand : Nat) :
    (updateGlowPoint pool index speed rand).1.length = pool.length := by
  unfold updateGlowPoint
  cases h : pool[index]? <;> simp

lemma gentleGlow_length (pool : List GlowPoint) (hue brightness speed spread : Nat)
    (stableRolls : List Nat) (spawnRoll pos hueVar spreadVar intensityVar : Nat) :
    (gentleGlow pool hue brightness speed spread stableRolls spawnRoll pos hueVar
      spreadVar intensityVar).length = pool.length := by
  unfold gentleGlow
  have hfold : ∀ (l : List Nat) (q : List GlowPoint),
      (l.foldl (fun acc i =>
        if (acc[i]?.map (fun p => p.active)).getD false then
          (updateGlowPoint acc i speed (stableRolls.getD i 0)).1
        else acc) q).length = q.length := by
    intro l
    induction l with
    | nil => intro q; rfl
    | cons a l ih =>
      intro q
      simp only [List.foldl_cons]
      rw [ih]
      split
      · exact updateGlowPoint_length q a speed (stableRolls.getD a 0)
      · rfl
  dsimp only
  split
  · split
    · rw [addGlowPoint_length, hfold]
    · exact hfold _ pool
  · exact hfold _ pool

lemma runOps_length (ops : List GlowOp) (pool : List GlowPoint) :
    (runOps pool ops).length = pool.length := by
  induction ops generalizing pool with
  | nil => rfl
  | cons op ops ih =>
    simp only [runOps, List.foldl_cons]
    rw [show (List.foldl applyOp (applyOp pool op) ops) = runOps (applyOp pool op) ops from rfl,
      ih]
    cases op with
    | add pos hue spread intensity => exact addGlowPoint_length pool pos hue spread intensity
    | update index speed rand => exact updateGlowPoint_length pool index speed rand
    | glow hue brightness speed spread stableRolls spawnRoll pos hueVar spreadVar intensityVar =>
        exact gentleGlow_length pool hue brightness speed spread stableRolls spawnRoll pos
          hueVar spreadVar intensityVar

lemma activeCount_le_length (pool : List GlowPoint) :
    activeCount pool ≤ pool.length :=
  List.length_filter_le _ pool

lemma addGlowPoint_full (pool : List GlowPoint) (pos hue spread intensity : Nat)
    (hfull : ∀ p ∈ pool, p.active = true) :
    addGlowPoint pool pos hue spread intensity = (pool, none) := by
  induction pool with
  | nil => rfl
  | cons p rest ih =>
    have hp : p.active = true := hfull p (List.mem_cons_self p rest)
    have hrest : ∀ q ∈ rest, q.active = true := fun q hq => hfull q (List.mem_cons_of_mem p hq)
    simp only [addGlowPoint, hp, if_pos, ih hrest]
    rfl

/-- Claim C1: under every sequence of glow-engine calls the pool never holds
more than MAX_GLOW_POINTS = 5 active glow points, and a spawn attempt on a
fully active pool returns no index and leaves the pool unchanged. -/
theorem glow_pool_capacity (ops : List GlowOp) :
    activeCount (runOps initPool ops) ≤ MAX_GLOW_POINTS ∧
    ∀ (pool : List GlowPoint) (pos hue spread intensity : Nat),
      (∀ p ∈ pool, p.active = true) →
      addGlowPoint pool pos hue spread intensity = (pool, none) := by
  constructor
  · have h1 := activeCount_le_length (runOps initPool ops)
    have h2 := runOps_length ops initPool
    have h3 : initPool.length = MAX_GLOW_POINTS := by simp [initPool]
    omega
  · intro pool pos hue spread intensity hfull
    exact addGlowPoint_full pool pos hue spread intensity hfull

/-- Witness for C1: a concrete run (one spawn) respects the capacity bound,
and a concrete fully active pool rejects a spawn unchanged. -/
theorem glow_pool_capacity_witness :
    activeCount (runOps initPool [GlowOp.add 3 10 2 200]) ≤ MAX_GLOW_POINTS ∧
    addGlowPoint (List.replicate 5 (mkGlowPoint 0 0 0 0)) 1 2 3 4 =
      (List.replicate 5 (mkGlowPoint 0 0 0 0), none) :=
  ⟨(glow_pool_capacity [GlowOp.add 3 10 2 200]).1,
   (glow_pool_capacity []).2 (List.replicate 5 (mkGlowPoint 0 0 0 0)) 1 2 3 4
     (by decide)⟩

/-- Claim C10: gentleGlow called with brightness 10 (< 20) and an intensity
jitter of 15 spawns a glow point whose target intensity is (10 - 15) mod 256
= 251, exceeding the requested brightness: the uint8_t wrap makes the spawned
target unbounded by the brightness parameter. -/
theorem gentleGlow_brightness_wrap :
    ((gentleGlow initPool 160 10 0 5 [] 255 3 0 0 15).head?.map
      (fun p => (p.active, p.maxIntensity))) = some (true, 251) ∧
    10 < 251 := by
  constructor
  · rfl
  · decide

lemma updateGlowPointP_inactive (p : GlowPoint) (speed rand : Nat)
    (h : p.active = false) :
    updateGlowPointP p speed rand = (p, false) := by
  simp [updateGlowPointP, h]

lemma updateGlowPointP_growing (p : GlowPoint) (speed rand : Nat)
    (hact : p.active = true) (hs : p.state = 1) :
    updateGlowPointP p speed rand =
      (if p.maxIntensity ≤
          (if max 1 (speed / 20) < 255 - p.currentIntensity then
            p.currentIntensity + max 1 (speed / 20) else 255)
        then { p with currentIntensity := p.maxIntensity, state := 0 }
        else { p with currentIntensity :=
          (if max 1 (speed / 20) < 255 - p.currentIntensity then
            p.currentIntensity + max 1 (speed / 20) else 255) }, true) := by
  obtain ⟨pos, hue, spread, maxI, curI, st, act⟩ := p
  replace hact : act = true := hact
  replace hs : st = 1 := hs
  subst hact
  subst hs
  simp only [updateGlowPointP]
  norm_num
  split_ifs <;> simp_all [GlowPoint.mk.injEq] <;> omega

lemma updateGlowPointP_stable (p : GlowPoint) (speed rand : Nat)
    (hact : p.active = true) (hs : p.state = 0) :
    updateGlowPointP p speed rand =
      (if rand < 5 then { p with state := -1 } else p, true) := by
  obtain ⟨pos, hue, spread, maxI, curI, st, act⟩ := p
  replace hact : act = true := hact
  replace hs : st = 0 := hs
  subst hact
  subst hs
  simp only [updateGlowPointP]
  norm_num

lemma updateGlowPointP_fading (p : GlowPoint) (speed rand : Nat)
    (hact : p.active = true) (hs : p.state = -1) :
    updateGlowPointP p speed rand =
      (if p.currentIntensity ≤ max 1 (speed / 20)
        then ({ p with active := false }, false)
        else ({ p with currentIntensity := p.currentIntensity - max 1 (speed / 20) }, true)) := by
  obtain ⟨pos, hue, spread, maxI, curI, st, act⟩ := p
  replace hact : act = true := hact
  replace hs : st = -1 := hs
  subst hact
  subst hs
  simp only [updateGlowPointP]
  norm_num

lemma updateGlowPointP_corrupt (p : GlowPoint) (speed rand : Nat)
    (hact : p.active = true) (hs : p.state ≠ 1 ∧ p.state ≠ 0 ∧ p.state ≠ -1) :
    updateGlowPointP p speed rand =
      (if p.currentIntensity ≤ max 1 (speed / 20)
        then ({ p with state := -1, active := false }, false)
        else ({ p with state := -1, currentIntensity := p.currentIntensity - max 1 (speed / 20) }, true)) := by
  obtain ⟨pos, hue, spread, maxI, curI, st, act⟩ := p
  replace hact : act = true := hact
  subst hact
  simp only at hs
  simp only [updateGlowPointP, if_pos hs]
  norm_num

/-- All single-step lifecycle facts used by claim C2, established by case
analysis on the region of the glow point state. -/
lemma updateGlowPointP_props (p : GlowPoint) (speed rand : Nat)
    (hcur : p.currentIntensity ≤ p.maxIntensity) (hmax : p.maxIntensity ≤ 255) :
    (updateGlowPointP p speed rand).1.maxIntensity = p.maxIntensity ∧
    (updateGlowPointP p speed rand).1.currentIntensity ≤
      (updateGlowPointP p speed rand).1.maxIntensity ∧
    (p.state = 1 → p.currentIntensity ≤ (updateGlowPointP p speed rand).1.currentIntensity) ∧
    (p.state = 0 → (updateGlowPointP p speed rand).1.currentIntensity = p.currentIntensity) ∧
    (p.state = -1 → (updateGlowPointP p speed rand).1.currentIntensity ≤ p.currentIntensity) ∧
    (p.state ≠ 1 → (updateGlowPointP p speed rand).1.state ≠ 1) := by
  have h255 : p.currentIntensity ≤ 255 := le_trans hcur hmax
  by_cases hact : p.active = true
  case neg =>
    have hf : p.active = false := by
      cases hp : p.active
      · rfl
      · exact absurd hp hact
    rw [updateGlowPointP_inactive p speed rand hf]
    exact ⟨rfl, hcur, fun _ => le_refl _, fun _ => rfl, fun _ => le_refl _, fun h => h⟩
  case pos =>
    by_cases h1 : p.state = 1
    · rw [updateGlowPointP_growing p speed rand hact h1]
      refine ⟨?_, ?_, ?_, ?_, ?_, ?_⟩
      · split_ifs <;> rfl
      · split_ifs <;> dsimp only <;> omega
      · intro _
        split_ifs <;> dsimp only <;> omega
      · intro h
        rw [h1] at h
        exact absurd h (by decide)
      · intro h
        rw [h1] at h
        exact absurd h (by decide)
      · intro h
        exact absurd h1 h
    · by_cases h0 : p.state = 0
      · rw [updateGlowPointP_stable p speed rand hact h0]
        refine ⟨?_, ?_, ?_, ?_, ?_, ?_⟩
        · split_ifs <;> rfl
        · split_ifs <;> exact hcur
        · intro h
          rw [h0] at h
          exact absurd h (by decide)
        · intro _
          split_ifs <;> rfl
        · intro h
          rw [h0] at h
          exact absurd h (by decide)
        · intro _
          split_ifs
          · exact (by decide : (-1 : Int) ≠ 1)
          · rw [h0]
            decide
      · by_cases hm : p.state = -1
        · rw [updateGlowPointP_fading p speed rand hact hm]
          refine ⟨?_, ?_, ?_, ?_, ?_, ?_⟩
          · split_ifs <;> rfl
          · split_ifs <;> dsimp only <;> omega
          · intro h
            rw [hm] at h
            exact absurd h (by decide)
          · intro h
            rw [hm] at h
            exact absurd h (by decide)
          · intro _
            split_ifs <;> dsimp only <;> omega
          · intro _
            split_ifs <;> (show p.state ≠ 1) <;> rw [hm] <;> decide
        · rw [updateGlowPointP_corrupt p speed rand hact ⟨h1, h0, hm⟩]
          refine ⟨?_, ?_, ?_, ?_, ?_, ?_⟩
          · split_ifs <;> rfl
          · split_ifs <;> dsimp only <;> omega
          · intro h
            exact absurd h h1
          · intro h
            exact absurd h h0
          · intro h
            exact absurd h hm
          · intro _
            split_ifs <;> exact (by decide : (-1 : Int) ≠ 1)

/-- Claim C2: a spawned glow point starts at intensity 0 in the Growing
state; one update step keeps the target unchanged, keeps the intensity
within [0, target], does not decrease it while Growing, leaves it constant
while Stable, does not increase it while Fading, and never returns to the
Growing state once the point has left it.  The hypotheses are the uint8_t
range facts of the C fields. -/
theorem glow_intensity_trace (p : GlowPoint) (speed rand pos hue spread intensity : Nat)
    (hcur : p.currentIntensity ≤ p.maxIntensity) (hmax : p.maxIntensity ≤ 255) :
    (mkGlowPoint pos hue spread intensity).currentIntensity = 0 ∧
    (mkGlowPoint pos hue spread intensity).state = 1 ∧
    (updateGlowPointP p speed rand).1.maxIntensity = p.maxIntensity ∧
    (updateGlowPointP p speed rand).1.currentIntensity ≤
      (updateGlowPointP p speed rand).1.maxIntensity ∧
    (p.state = 1 → p.currentIntensity ≤ (updateGlowPointP p speed rand).1.currentIntensity) ∧
    (p.state = 0 → (updateGlowPointP p speed rand).1.currentIntensity = p.currentIntensity) ∧
    (p.state = -1 → (updateGlowPointP p speed rand).1.currentIntensity ≤ p.currentIntensity) ∧
    (p.state ≠ 1 → (updateGlowPointP p speed rand).1.state ≠ 1) :=
  ⟨rfl, rfl, updateGlowPointP_props p speed rand hcur hmax⟩

/-- Witness for C2: the concrete growing point spawned with target 200
instantiates every conjunct at speed 255. -/
theorem glow_intensity_trace_witness :
    (mkGlowPoint 3 160 5 200).currentIntensity = 0 ∧
    (mkGlowPoint 3 160 5 200).state = 1 ∧
    (updateGlowPointP (mkGlowPoint 3 160 5 200) 255 0).1.maxIntensity =
      (mkGlowPoint 3 160 5 200).maxIntensity ∧
    (updateGlowPointP (mkGlowPoint 3 160 5 200) 255 0).1.currentIntensity ≤
      (updateGlowPointP (mkGlowPoint 3 160 5 200) 255 0).1.maxIntensity ∧
    ((mkGlowPoint 3 160 5 200).state = 1 →
      (mkGlowPoint 3 160 5 200).currentIntensity ≤
        (updateGlowPointP (mkGlowPoint 3 160 5 200) 255 0).1.currentIntensity) ∧
    ((mkGlowPoint 3 160 5 200).state = 0 →
      (updateGlowPointP (mkGlowPoint 3 160 5 200) 255 0).1.currentIntensity =
        (mkGlowPoint 3 160 5 200).currentIntensity) ∧
    ((mkGlowPoint 3 160 5 200).state = -1 →
      (updateGlowPointP (mkGlowPoint 3 160 5 200) 255 0).1.currentIntensity ≤
        (mkGlowPoint 3 160 5 200).currentIntensity) ∧
    ((mkGlowPoint 3 160 5 200).state ≠ 1 →
      (updateGlowPointP (mkGlowPoint 3 160 5 200) 255 0).1.state ≠ 1) :=
  glow_intensity_trace (mkGlowPoint 3 160 5 200) 255 0 3 160 5 200
    (by decide) (by decide)

/-- A fading glow point used as the C4 counterexample: intensity 100,
target 200. -/
def fadingPoint : GlowPoint :=
  { pos := 0, hue := 0, spread := 2, maxIntensity := 200,
    currentIntensity := 100, state := -1, active := true }

/-- Counterexample to claim C4: at speed 255 the step is max(1, 255/20) = 12,
and the Fading branch of LEDPatterns::updateGlowPoint subtracts the full
step (100 - 12 = 88), not step/2 = 6 as the claim states (100 - 6 = 94). -/
theorem glow_fade_counterexample :
    (updateGlowPointP fadingPoint 255 0).1.currentIntensity = 88 ∧
    (updateGlowPointP fadingPoint 255 0).1.currentIntensity ≠
      fadingPoint.currentIntensity - (max 1 (255 / 20)) / 2 := by
  decide

/-- Claim C4 as amended: with step = max(1, speed/20), a Growing step sets
the intensity to min(intensity + step, target) and moves to Stable exactly
when the target is reached; a Fading step subtracts the full step (fading at
the same rate as growth, not step/2), and deactivates the point, freeing its
slot, exactly when the intensity is at most the step. -/
theorem glow_step_arithmetic (p : GlowPoint) (speed rand : Nat)
    (hact : p.active = true) (hcur : p.currentIntensity ≤ p.maxIntensity)
    (hmax : p.maxIntensity ≤ 255) :
    (p.state = 1 →
      (updateGlowPointP p speed rand).1.currentIntensity =
        min (p.currentIntensity + max 1 (speed / 20)) p.maxIntensity ∧
      ((updateGlowPointP p speed rand).1.state = 0 ↔
        p.maxIntensity ≤ p.currentIntensity + max 1 (speed / 20)) ∧
      (updateGlowPointP p speed rand).2 = true) ∧
    (p.state = -1 →
      (p.currentIntensity ≤ max 1 (speed / 20) →
        (updateGlowPointP p speed rand).1.active = false ∧
        (updateGlowPointP p speed rand).2 = false) ∧
      (max 1 (speed / 20) < p.currentIntensity →
        (updateGlowPointP p speed rand).1.currentIntensity =
          p.currentIntensity - max 1 (speed / 20) ∧
        (updateGlowPointP p speed rand).1.active = true ∧
        (updateGlowPointP p speed rand).2 = true)) := by
  have h255 : p.currentIntensity ≤ 255 := le_trans hcur hmax
  constructor
  · intro hst
    rw [updateGlowPointP_growing p speed rand hact hst]
    refine ⟨?_, ?_, rfl⟩
    · split_ifs <;> dsimp only <;> omega
    · constructor
      · revert hst
        split_ifs <;> dsimp only <;> intro hst h <;> omega
      · intro h
        split_ifs <;> dsimp only <;> omega
  · intro hst
    rw [updateGlowPointP_fading p speed rand hact hst]
    constructor
    · intro hc
      rw [if_pos hc]
      exact ⟨rfl, rfl⟩
    · intro hc
      rw [if_neg (by omega)]
      exact ⟨rfl, hact, rfl⟩

/-- Witness for C4 (amended): the concrete fading point at speed 255
discharges the hypotheses; its intensity 100 exceeds the step 12, so the
subtract branch applies: 100 - 12 = 88 and the point stays active. -/
theorem glow_step_arithmetic_witness :
    (fadingPoint.state = 1 →
      (updateGlowPointP fadingPoint 255 0).1.currentIntensity =
        min (fadingPoint.currentIntensity + max 1 (255 / 20)) fadingPoint.maxIntensity ∧
      ((updateGlowPointP fadingPoint 255 0).1.state = 0 ↔
        fadingPoint.maxIntensity ≤ fadingPoint.currentIntensity + max 1 (255 / 20)) ∧
      (updateGlowPointP fadingPoint 255 0).2 = true) ∧
    (fadingPoint.state = -1 →
      (fadingPoint.currentIntensity ≤ max 1 (255 / 20) →
        (updateGlowPointP fadingPoint 255 0).1.active = false ∧
        (updateGlowPointP fadingPoint 255 0).2 = false) ∧
      (max 1 (255 / 20) < fadingPoint.currentIntensity →
        (updateGlowPointP fadingPoint 255 0).1.currentIntensity =
          fadingPoint.currentIntensity - max 1 (255 / 20) ∧
        (updateGlowPointP fadingPoint 255 0).1.active = true ∧
        (updateGlowPointP fadingPoint 255 0).2 = true)) :=
  glow_step_arithmetic fadingPoint 255 0 (by decide) (by decide) (by decide)

/-- An RGB pixel; each channel is a uint8_t value in [0, 255]. -/
structure RGB where
  r : Nat
  g : Nat
  b : Nat
deriving DecidableEq

/-- Channel values fit in a byte. -/
def RGB.isByte (c : RGB) : Prop := c.r ≤ 255 ∧ c.g ≤ 255 ∧ c.b ≤ 255

instance (c : RGB) : Decidable c.isByte := by
  unfold RGB.isByte
  infer_instance

/-- Every pixel of a buffer fits in bytes. -/
def validBuf (l : List RGB) : Prop := ∀ c ∈ l, c.isByte

instance (l : List RGB) : Decidable (validBuf l) := by
  unfold validBuf
  exact List.decidableBAll _ l

/-- FastLED blend8 with FASTLED_BLEND_FIXED (the default): the uint16_t
partial sum a*(255-m) + a + b*m + b shifted right by 8. -/
def blend8 (a b m : Nat) : Nat :=
  (a * (255 - m) + a + b * m + b) / 256

/-- FastLED blend on CRGB: blend8 on each channel. -/
def blendRGB (x y : RGB) (m : Nat) : RGB :=
  { r := blend8 x.r y.r m, g := blend8 x.g y.g m, b := blend8 x.b y.b m }

/-- Transition state of the LEDPatterns.cpp revision (revision A): the blend
works in place on the live led buffer, which at the moment the transition
starts holds the freshly rendered target frame. -/
structure TransitionA where
  prevLeds : List RGB
  leds : List RGB
  transitionActive : Bool
  transitionStartTime : Nat
  transitionDuration : Nat
deriving DecidableEq

/-- LEDPatterns::updateTransitions of revision A.  frac is the uint8_t value
(uint8)(progress * 255) that the source computes from the float quotient
elapsed/duration; it is passed explicitly because IEEE float evaluation is
outside this embedding (the counterexample instantiates it at a point where
the float computation is exact).  On completion the function only clears the
active flag: the led buffer keeps its last in-place blended contents. -/
def updateTransitionsA (s : TransitionA) (now frac : Nat) : TransitionA × Bool :=
  if s.transitionActive = false then
    (s, false)
  else
    let elapsed := now - s.transitionStartTime
    if s.transitionDuration ≤ elapsed then
      ({ s with transitionActive := false }, false)
    else
      ({ s with leds := s.prevLeds.zipWith (fun p c => blendRGB p c frac) s.leds }, true)

/-- Transition state of the part_002 revision (revision B) with explicit
previous and target buffers. -/
structure TransitionB where
  previousLeds : List RGB
  targetLeds : List RGB
  leds : List RGB
  isTransitioning : Bool
  transitionStartTime : Nat
  transitionDuration : Nat
deriving DecidableEq

/-- LEDPatterns::updateTransitions of revision B (src/unnamed/part_002):
on completion (elapsed at least the duration) the target buffer is copied
into the led buffer and the transition is cleared; otherwise the integer
progress map(elapsed, 0, duration, 0, 255) drives blendColors (FastLED
blend) from the previous buffer toward the target buffer. -/
def updateTransitionsB (s : TransitionB) (now : Nat) : TransitionB × Bool :=
  if s.isTransitioning = false then
    (s, false)
  else
    let elapsed := now - s.transitionStartTime
    if s.transitionDuration ≤ elapsed then
      ({ s with leds := s.targetLeds, isTransitioning := false }, false)
    else
      let progress := toByte (cmap (elapsed : Int) 0 (s.transitionDuration : Int) 0 255)
      ({ s with leds :=
        s.previousLeds.zipWith (fun p t => blendRGB p t progress) s.targetLeds }, true)

lemma blend8_zero (a b : Nat) (hb : b ≤ 255) : blend8 a b 0 = a := by
  unfold blend8
  omega

lemma blend8_between (a b m : Nat) (ha : a ≤ 255) (hb : b ≤ 255) (hm : m ≤ 255) :
    min a b ≤ blend8 a b m ∧ blend8 a b m ≤ max a b := by
  unfold blend8
  have hsum : (255 - m) + m = 255 := Nat.sub_add_cancel hm
  have e1 : a * (255 - m) + a * m = a * 255 := by
    rw [← Nat.left_distrib, hsum]
  have e2 : b * (255 - m) + b * m = b * 255 := by
    rw [← Nat.left_distrib, hsum]
  rcases le_total a b with hab | hab
  · rw [min_eq_left hab, max_eq_right hab]
    have h1 : a * m ≤ b * m := Nat.mul_le_mul_right m hab
    have h2 : a * (255 - m) ≤ b * (255 - m) := Nat.mul_le_mul_right _ hab
    have hlow : a * 256 ≤ a * (255 - m) + a + b * m + b := by omega
    have hhigh : a * (255 - m) + a + b * m + b ≤ b * 256 + b := by omega
    have d1 := Nat.div_le_div_right (c := 256) hlow
    have d2 := Nat.div_le_div_right (c := 256) hhigh
    omega
  · rw [min_eq_right hab, max_eq_left hab]
    have h1 : b * m ≤ a * m := Nat.mul_le_mul_right m hab
    have h2 : b * (255 - m) ≤ a * (255 - m) := Nat.mul_le_mul_right _ hab
    have hlow : b * 256 ≤ a * (255 - m) + a + b * m + b := by omega
    have hhigh : a * (255 - m) + a + b * m + b ≤ a * 256 + a := by omega
    have d1 := Nat.div_le_div_right (c := 256) hlow
    have d2 := Nat.div_le_div_right (c := 256) hhigh
    omega

lemma zipWith_blend_zero (l1 l2 : List RGB) (hlen : l1.length = l2.length)
    (hv : validBuf l2) :
    l1.zipWith (fun p t => blendRGB p t 0) l2 = l1 := by
  induction l1 generalizing l2 with
  | nil => simp
  | cons x xs ih =>
    cases l2 with
    | nil => simp at hlen
    | cons y ys =>
      have hy : y.isByte := hv y (List.mem_cons_self y ys)
      have hys : validBuf ys := fun c hc => hv c (List.mem_cons_of_mem y hc)
      simp only [List.zipWith_cons_cons]
      rw [ih ys (by simpa using hlen) hys]
      obtain ⟨h1, h2, h3⟩ := hy
      unfold blendRGB
      congr 1
      cases x
      simp only [RGB.mk.injEq]
      exact ⟨blend8_zero _ _ h1, blend8_zero _ _ h2, blend8_zero _ _ h3⟩

/-- A channelwise convex-combination bound: each output channel lies between
the corresponding channels of the two source pixels. -/
def convexPix (p t o : RGB) : Prop :=
  (min p.r t.r ≤ o.r ∧ o.r ≤ max p.r t.r) ∧
  (min p.g t.g ≤ o.g ∧ o.g ≤ max p.g t.g) ∧
  (min p.b t.b ≤ o.b ∧ o.b ≤ max p.b t.b)

lemma zipWith_blend_convex (m : Nat) (hm : m ≤ 255) :
    ∀ (l1 l2 : List RGB), validBuf l1 → validBuf l2 →
    List.Forall₂ (fun pr o => convexPix pr.1 pr.2 o) (l1.zip l2)
      (l1.zipWith (fun p t => blendRGB p t m) l2) := by
  intro l1
  induction l1 with
  | nil => intro l2 _ _; simp
  | cons x xs ih =>
    intro l2 hv1 hv2
    cases l2 with
    | nil => simp
    | cons y ys =>
      have hx : x.isByte := hv1 x (List.mem_cons_self x xs)
      have hy : y.isByte := hv2 y (List.mem_cons_self y ys)
      have hxs : validBuf xs := fun c hc => hv1 c (List.mem_cons_of_mem x hc)
      have hys : validBuf ys := fun c hc => hv2 c (List.mem_cons_of_mem y hc)
      simp only [List.zip_cons_cons, List.zipWith_cons_cons]
      refine List.Forall₂.cons ?_ (ih ys hxs hys)
      obtain ⟨hx1, hx2, hx3⟩ := hx
      obtain ⟨hy1, hy2, hy3⟩ := hy
      exact ⟨blend8_between _ _ m hx1 hy1 hm, blend8_between _ _ m hx2 hy2 hm,
        blend8_between _ _ m hx3 hy3 hm⟩

lemma toByte_le (x : Int) : toByte x ≤ 255 := by
  unfold toByte
  have h1 : 0 ≤ x % 256 := Int.emod_nonneg x (by norm_num)
  have h2 : x % 256 < 256 := Int.emod_lt_of_pos x (by norm_num)
  omega

/-- The revision-A transition state right after startTransition: previous
buffer captured as black, live led buffer holding the freshly rendered
target pixel (255, 0, 0), duration 256 ms starting at time 0. -/
def transA0 : TransitionA :=
  { prevLeds := [{ r := 0, g := 0, b := 0 }],
    leds := [{ r := 255, g := 0, b := 0 }],
    transitionActive := true, transitionStartTime := 0, transitionDuration := 256 }

/-- Counterexample to claim C3 on the LEDPatterns.cpp revision: one
intermediate tick at 128 ms (float progress 0.5, so frac = (uint8)(0.5*255)
= 127 exactly) blends the live buffer in place to (127, 0, 0); the
completion tick at 256 ms only clears the active flag, so the final output
is (127, 0, 0), not the target (255, 0, 0): completion leaves a residual
blend error. -/
theorem transition_residual_counterexample :
    (updateTransitionsA (updateTransitionsA transA0 128 127).1 256 255).1.transitionActive
      = false ∧
    (updateTransitionsA (updateTransitionsA transA0 128 127).1 256 255).1.leds ≠
      transA0.leds ∧
    (updateTransitionsA (updateTransitionsA transA0 128 127).1 256 255).1.leds =
      [{ r := 127, g := 0, b := 0 }] := by
  decide

/-- Claim C3 as amended: in the explicit-target revision of
updateTransitions (src/unnamed/part_002), while a transition is active a
tick at elapsed 0 outputs exactly the previous buffer, an intermediate tick
outputs a per-pixel per-channel convex combination of the previous and
target buffers driven by the integer progress 255*elapsed/duration, and a
tick at elapsed at least the duration marks the transition inactive and
copies the target buffer to the output exactly.  (In the LEDPatterns.cpp
revision, completion instead leaves the last in-place blend in the buffer.) -/
theorem transition_blend_spec (s : TransitionB) (now : Nat)
    (hact : s.isTransitioning = true)
    (hlen : s.previousLeds.length = s.targetLeds.length)
    (hvp : validBuf s.previousLeds) (hvt : validBuf s.targetLeds) :
    (s.transitionDuration ≤ now - s.transitionStartTime →
      (updateTransitionsB s now).1.isTransitioning = false ∧
      (updateTransitionsB s now).1.leds = s.targetLeds ∧
      (updateTransitionsB s now).2 = false) ∧
    (now - s.transitionStartTime = 0 → 0 < s.transitionDuration →
      (updateTransitionsB s now).1.leds = s.previousLeds) ∧
    (0 < now - s.transitionStartTime →
      now - s.transitionStartTime < s.transitionDuration →
      (updateTransitionsB s now).2 = true ∧
      List.Forall₂ (fun pr o => convexPix pr.1 pr.2 o)
        (s.previousLeds.zip s.targetLeds) (updateTransitionsB s now).1.leds) := by
  have hniff : ¬s.isTransitioning = false := by simp [hact]
  refine ⟨?_, ?_, ?_⟩
  · intro hdone
    unfold updateTransitionsB
    rw [if_neg hniff, if_pos hdone]
    exact ⟨rfl, rfl, rfl⟩
  · intro h0 hdur
    unfold updateTransitionsB
    rw [if_neg hniff, if_neg (by omega), h0]
    have hprog : toByte (cmap ((0 : Nat) : Int) 0 (s.transitionDuration : Int) 0 255) = 0 := by
      simp [cmap, toByte]
    dsimp only
    rw [hprog, zipWith_blend_zero s.previousLeds s.targetLeds hlen hvt]
  · intro h1 h2
    unfold updateTransitionsB
    rw [if_neg hniff, if_neg (by omega)]
    exact ⟨rfl, zipWith_blend_convex _ (toByte_le _) s.previousLeds s.targetLeds hvp hvt⟩

/-- A concrete revision-B transition state for the C3 witness. -/
def transB0 : TransitionB :=
  { previousLeds := [{ r := 0, g := 0, b := 0 }],
    targetLeds := [{ r := 255, g := 0, b := 0 }],
    leds := [{ r := 255, g := 0, b := 0 }],
    isTransitioning := true, transitionStartTime := 0, transitionDuration := 256 }

/-- Witness for C3 (amended): the concrete transition state discharges the
hypotheses at tick time 300. -/
theorem transition_blend_spec_witness :
    (transB0.transitionDuration ≤ 300 - transB0.transitionStartTime →
      (updateTransitionsB transB0 300).1.isTransitioning = false ∧
      (updateTransitionsB transB0 300).1.leds = transB0.targetLeds ∧
      (updateTransitionsB transB0 300).2 = false) ∧
    (300 - transB0.transitionStartTime = 0 → 0 < transB0.transitionDuration →
      (updateTransitionsB transB0 300).1.leds = transB0.previousLeds) ∧
    (0 < 300 - transB0.transitionStartTime →
      300 - transB0.transitionStartTime < transB0.transitionDuration →
      (updateTransitionsB transB0 300).2 = true ∧
      List.Forall₂ (fun pr o => convexPix pr.1 pr.2 o)
        (transB0.previousLeds.zip transB0.targetLeds)
        (updateTransitionsB transB0 300).1.leds) :=
  transition_blend_spec transB0 300 rfl rfl (by decide) (by decide)

/-- Fuel-bounded base-10 logarithm kernel: counts how many times n can be
divided by 10 before dropping below 10.  With fuel at least n this is the
floor of log10 for every positive n. -/
def natLog10Go : Nat → Nat → Nat
  | 0, _ => 0
  | fuel + 1, n => if n < 10 then 0 else natLog10Go fuel (n / 10) + 1

/-- Floor of the base-10 logarithm (0 at 0), computable by the kernel. -/
def natLog10 (n : Nat) : Nat := natLog10Go n n

/-- Intensity conditioning from the main loop:
constrain((uint8_t)(log10(|raw| + 1) * scale), 0, 255).  The truncation of
the real value scale * log10(x) equals the floor of log10(x ^ scale), here
natLog10 (x ^ scale); the uint8_t cast of the float reduces that truncated
value modulo 256 before constrain runs (so constrain never clips), which is
the behaviour of the compiled code.  At every input used below the float
evaluation is far from an integer boundary, so the exact-real floor agrees
with it. -/
def scaledIntensity (scale : Nat) (raw : Int) : Nat :=
  min (natLog10 ((raw.natAbs + 1) ^ scale) % 256) 255

/-- Per-channel sensor debounce state from the main loop
(src/unnamed/part_000): detection flag, saturating consecutive-detection
counters and the derived intensity byte. -/
structure DebounceState where
  detected : Bool
  detCount : Nat
  nonDetCount : Nat
  intensity : Nat
deriving DecidableEq

/-- One polling iteration of the per-channel debounce logic of the main
loop: a qualifying sample (absolute raw value above the channel floor AND
hardware flag set) increments the saturating detect counter and zeroes the
other counter; reaching DEBOUNCE_COUNT sets the detected flag and
recomputes the intensity.  A non-qualifying sample drives the symmetric
counter, clearing the flag and zeroing the intensity at DEBOUNCE_COUNT. -/
def debounceStep (minValue scale : Nat) (raw : Int) (hwFlag : Bool)
    (s : DebounceState) : DebounceState :=
  if minValue < raw.natAbs ∧ hwFlag = true then
    let dc := min (s.detCount + 1) 255
    if DEBOUNCE_COUNT ≤ dc then
      { detected := true, detCount := dc, nonDetCount := 0,
        intensity := scaledIntensity scale raw }
    else
      { s with detCount := dc, nonDetCount := 0 }
  else
    let nc := min (s.nonDetCount + 1) 255
    if DEBOUNCE_COUNT ≤ nc then
      { detected := false, detCount := 0, nonDetCount := nc, intensity := 0 }
    else
      { s with nonDetCount := nc, detCount := 0 }

lemma debounceStep_qual (minValue scale : Nat) (raw : Int) (hw : Bool)
    (s : DebounceState) (h : minValue < raw.natAbs ∧ hw = true) :
    (debounceStep minValue scale raw hw s).detCount = min (s.detCount + 1) 255 ∧
    (debounceStep minValue scale raw hw s).detected =
      (if DEBOUNCE_COUNT ≤ min (s.detCount + 1) 255 then true else s.detected) ∧
    (debounceStep minValue scale raw hw s).intensity =
      (if DEBOUNCE_COUNT ≤ min (s.detCount + 1) 255 then scaledIntensity scale raw
        else s.intensity) := by
  unfold debounceStep
  rw [if_pos h]
  dsimp only
  split_ifs <;> exact ⟨rfl, rfl, rfl⟩

lemma debounceStep_nonqual (minValue scale : Nat) (raw : Int) (hw : Bool)
    (s : DebounceState) (h : ¬(minValue < raw.natAbs ∧ hw = true)) :
    (debounceStep minValue scale raw hw s).nonDetCount = min (s.nonDetCount + 1) 255 ∧
    (debounceStep minValue scale raw hw s).detected =
      (if DEBOUNCE_COUNT ≤ min (s.nonDetCount + 1) 255 then false else s.detected) ∧
    (debounceStep minValue scale raw hw s).intensity =
      (if DEBOUNCE_COUNT ≤ min (s.nonDetCount + 1) 255 then 0 else s.intensity) := by
  unfold debounceStep
  rw [if_neg h]
  dsimp only
  split_ifs <;> exact ⟨rfl, rfl, rfl⟩

/-- A channel state two qualifying polls into a detection run, with the
detected flag still false; it is reachable from the reset state by exactly
two qualifying polls. -/
def primedState : DebounceState :=
  { detected := false, detCount := 2, nonDetCount := 0, intensity := 0 }

/-- Counterexample to claim C5: from the prior state with detect counter 2
(allowed by the claim, which quantifies over any counter values), a single
qualifying poll, a run shorter than DEBOUNCE_COUNT = 3, flips the detected
flag from false to true, so short runs do not always leave the flag
unchanged. -/
theorem debounce_short_run_counterexample :
    primedState.detected = false ∧
    (debounceStep PRESENCE_MIN_VALUE PRESENCE_LOG_SCALE_FACTOR (-200) true
      primedState).detected = true := by
  exact ⟨rfl, rfl⟩


/-- Claim C5 as amended: from any prior state, DEBOUNCE_COUNT = 3
consecutive qualifying polls set the detected flag, and 3 consecutive
non-qualifying polls clear it and zero the intensity; a run of one or two
polls leaves the flag unchanged provided the counter for that run starts at
zero, which holds in particular immediately after a poll of the opposite
kind (with arbitrary counters a shorter run can already cross the
threshold, as the counterexample shows). -/
theorem debounce_flag_spec (minValue scale : Nat) (s : DebounceState)
    (r1 r2 r3 : Int) (f1 f2 f3 : Bool) :
    ((minValue < r1.natAbs ∧ f1 = true) → (minValue < r2.natAbs ∧ f2 = true) →
      (minValue < r3.natAbs ∧ f3 = true) →
      (debounceStep minValue scale r3 f3 (debounceStep minValue scale r2 f2
        (debounceStep minValue scale r1 f1 s))).detected = true) ∧
    (¬(minValue < r1.natAbs ∧ f1 = true) → ¬(minValue < r2.natAbs ∧ f2 = true) →
      ¬(minValue < r3.natAbs ∧ f3 = true) →
      (debounceStep minValue scale r3 f3 (debounceStep minValue scale r2 f2
        (debounceStep minValue scale r1 f1 s))).detected = false ∧
      (debounceStep minValue scale r3 f3 (debounceStep minValue scale r2 f2
        (debounceStep minValue scale r1 f1 s))).intensity = 0) ∧
    (s.detCount = 0 → (minValue < r1.natAbs ∧ f1 = true) →
      (minValue < r2.natAbs ∧ f2 = true) →
      (debounceStep minValue scale r1 f1 s).detected = s.detected ∧
      (debounceStep minValue scale r2 f2
        (debounceStep minValue scale r1 f1 s)).detected = s.detected) ∧
    (s.nonDetCount = 0 → ¬(minValue < r1.natAbs ∧ f1 = true) →
      ¬(minValue < r2.natAbs ∧ f2 = true) →
      (debounceStep minValue scale r1 f1 s).detected = s.detected ∧
      (debounceStep minValue scale r2 f2
        (debounceStep minValue scale r1 f1 s)).detected = s.detected) := by
  refine ⟨?_, ?_, ?_, ?_⟩
  · intro h1 h2 h3
    obtain ⟨c1, d1, i1⟩ := debounceStep_qual minValue scale r1 f1 s h1
    obtain ⟨c2, d2, i2⟩ := debounceStep_qual minValue scale r2 f2 _ h2
    obtain ⟨c3, d3, i3⟩ := debounceStep_qual minValue scale r3 f3 _ h3
    rw [d3, c2, c1, if_pos (by unfold DEBOUNCE_COUNT; omega)]
  · intro h1 h2 h3
    obtain ⟨c1, d1, i1⟩ := debounceStep_nonqual minValue scale r1 f1 s h1
    obtain ⟨c2, d2, i2⟩ := debounceStep_nonqual minValue scale r2 f2 _ h2
    obtain ⟨c3, d3, i3⟩ := debounceStep_nonqual minValue scale r3 f3 _ h3
    rw [d3, i3, c2, c1]
    rw [if_pos (by unfold DEBOUNCE_COUNT; omega), if_pos (by unfold DEBOUNCE_COUNT; omega)]
    exact ⟨rfl, rfl⟩
  · intro h0 h1 h2
    obtain ⟨c1, d1, i1⟩ := debounceStep_qual minValue scale r1 f1 s h1
    obtain ⟨c2, d2, i2⟩ := debounceStep_qual minValue scale r2 f2 _ h2
    have e1 : (debounceStep minValue scale r1 f1 s).detected = s.detected := by
      rw [d1, h0, if_neg (by decide)]
    refine ⟨e1, ?_⟩
    rw [d2, c1, h0, if_neg (by decide)]
    exact e1
  · intro h0 h1 h2
    obtain ⟨c1, d1, i1⟩ := debounceStep_nonqual minValue scale r1 f1 s h1
    obtain ⟨c2, d2, i2⟩ := debounceStep_nonqual minValue scale r2 f2 _ h2
    have e1 : (debounceStep minValue scale r1 f1 s).detected = s.detected := by
      rw [d1, h0, if_neg (by decide)]
    refine ⟨e1, ?_⟩
    rw [d2, c1, h0, if_neg (by decide)]
    exact e1

/-- Witness for C5 (amended): from the reset state, three qualifying polls
(raw -200, flag set) set the flag; from a detected state, three
non-qualifying polls (raw 0, flag clear) clear it and zero the intensity;
one qualifying poll from the reset state leaves the flag unchanged. -/
theorem debounce_flag_spec_witness :
    (debounceStep PRESENCE_MIN_VALUE PRESENCE_LOG_SCALE_FACTOR (-200) true
      (debounceStep PRESENCE_MIN_VALUE PRESENCE_LOG_SCALE_FACTOR (-200) true
        (debounceStep PRESENCE_MIN_VALUE PRESENCE_LOG_SCALE_FACTOR (-200) true
          (DebounceState.mk false 0 0 0)))).detected = true ∧
    ((debounceStep PRESENCE_MIN_VALUE PRESENCE_LOG_SCALE_FACTOR 0 false
      (debounceStep PRESENCE_MIN_VALUE PRESENCE_LOG_SCALE_FACTOR 0 false
        (debounceStep PRESENCE_MIN_VALUE PRESENCE_LOG_SCALE_FACTOR 0 false
          (DebounceState.mk true 255 0 9)))).detected = false ∧
     (debounceStep PRESENCE_MIN_VALUE PRESENCE_LOG_SCALE_FACTOR 0 false
      (debounceStep PRESENCE_MIN_VALUE PRESENCE_LOG_SCALE_FACTOR 0 false
        (debounceStep PRESENCE_MIN_VALUE PRESENCE_LOG_SCALE_FACTOR 0 false
          (DebounceState.mk true 255 0 9)))).intensity = 0) ∧
    (debounceStep PRESENCE_MIN_VALUE PRESENCE_LOG_SCALE_FACTOR (-200) true
      (DebounceState.mk false 0 0 0)).detected = (DebounceState.mk false 0 0 0).detected :=
  ⟨(debounce_flag_spec PRESENCE_MIN_VALUE PRESENCE_LOG_SCALE_FACTOR
      (DebounceState.mk false 0 0 0) (-200) (-200) (-200) true true true).1
      (by decide) (by decide) (by decide),
   (debounce_flag_spec PRESENCE_MIN_VALUE PRESENCE_LOG_SCALE_FACTOR
      (DebounceState.mk true 255 0 9) 0 0 0 false false false).2.1
      (by decide) (by decide) (by decide),
   ((debounce_flag_spec PRESENCE_MIN_VALUE PRESENCE_LOG_SCALE_FACTOR
      (DebounceState.mk false 0 0 0) (-200) (-200) (-200) true true true).2.2.1
      rfl (by decide) (by decide)).1⟩

set_option maxRecDepth 4000 in
lemma scaledIntensity_neg200 :
    scaledIntensity PRESENCE_LOG_SCALE_FACTOR (-200) = 138 := by
  decide

set_option maxRecDepth 4000 in
lemma scaledIntensity_200 :
    scaledIntensity PRESENCE_LOG_SCALE_FACTOR 200 = 138 := by
  decide

set_option maxRecDepth 4000 in
lemma scaledIntensity_20000 :
    scaledIntensity PRESENCE_LOG_SCALE_FACTOR 20000 = 2 := by
  decide

/-- Claim C6: with the default floor 70 and scale factor 60, three
consecutive qualifying polls of raw presence -200 with the hardware flag
set, from any prior channel state, leave presenceDetected true and
presenceIntensity 138 = trunc(log10(201) * 60) (the clamp to [0, 255] does
not bind). -/
theorem presence_scenario_neg200 (s : DebounceState) :
    (debounceStep PRESENCE_MIN_VALUE PRESENCE_LOG_SCALE_FACTOR (-200) true
      (debounceStep PRESENCE_MIN_VALUE PRESENCE_LOG_SCALE_FACTOR (-200) true
        (debounceStep PRESENCE_MIN_VALUE PRESENCE_LOG_SCALE_FACTOR (-200) true s))).detected
      = true ∧
    (debounceStep PRESENCE_MIN_VALUE PRESENCE_LOG_SCALE_FACTOR (-200) true
      (debounceStep PRESENCE_MIN_VALUE PRESENCE_LOG_SCALE_FACTOR (-200) true
        (debounceStep PRESENCE_MIN_VALUE PRESENCE_LOG_SCALE_FACTOR (-200) true s))).intensity
      = 138 := by
  have hq : PRESENCE_MIN_VALUE < (-200 : Int).natAbs ∧ (true : Bool) = true := by decide
  obtain ⟨c1, d1, i1⟩ := debounceStep_qual PRESENCE_MIN_VALUE PRESENCE_LOG_SCALE_FACTOR
    (-200) true s hq
  obtain ⟨c2, d2, i2⟩ := debounceStep_qual PRESENCE_MIN_VALUE PRESENCE_LOG_SCALE_FACTOR
    (-200) true _ hq
  obtain ⟨c3, d3, i3⟩ := debounceStep_qual PRESENCE_MIN_VALUE PRESENCE_LOG_SCALE_FACTOR
    (-200) true _ hq
  constructor
  · rw [d3, c2, c1, if_pos (by unfold DEBOUNCE_COUNT; omega)]
  · rw [i3, c2, c1, if_pos (by unfold DEBOUNCE_COUNT; omega), scaledIntensity_neg200]

/-- Claim C7 is a code bug: the uint8_t cast in the main loop runs before
the constrain, so the truncated value 258 at raw 20000 wraps modulo 256 to
intensity 2, below the intensity 138 of the smaller qualifying reading 200;
intensity is not monotone in the absolute raw value over the int16 range,
although the dead constrain(..., 0, 255) shows saturation at 255 was
intended. -/
theorem intensity_wrap_bug :
    scaledIntensity PRESENCE_LOG_SCALE_FACTOR 200 = 138 ∧
    scaledIntensity PRESENCE_LOG_SCALE_FACTOR 20000 = 2 ∧
    PRESENCE_MIN_VALUE < (200 : Int).natAbs ∧
    PRESENCE_MIN_VALUE < (20000 : Int).natAbs ∧
    (200 : Int).natAbs ≤ (20000 : Int).natAbs ∧
    ¬(scaledIntensity PRESENCE_LOG_SCALE_FACTOR 200 ≤
      scaledIntensity PRESENCE_LOG_SCALE_FACTOR 20000) := by
  refine ⟨scaledIntensity_200, scaledIntensity_20000, by decide, by decide, by decide, ?_⟩
  rw [scaledIntensity_200, scaledIntensity_20000]
  omega

/-- Candidate animation parameters computed each tick by updateLEDPattern
(src/unnamed/part_000). -/
structure Params where
  hue : Nat
  brightness : Nat
  speed : Nat
  spread : Nat
deriving DecidableEq

/-- The last-applied parameter snapshot and last-change timestamp that gate
pattern updates in updateLEDPattern. -/
structure MapperState where
  last : Params
  lastPatternChange : Nat
deriving DecidableEq

/-- The per-field significant-change test of updateLEDPattern: absolute
differences against the last-applied snapshot, with thresholds hue 5,
brightness 8, speed 5, spread 1 (int arithmetic after integer promotion). -/
def significantChange (c last : Params) : Bool :=
  5 < ((c.hue : Int) - (last.hue : Int)).natAbs ||
  8 < ((c.brightness : Int) - (last.brightness : Int)).natAbs ||
  5 < ((c.speed : Int) - (last.speed : Int)).natAbs ||
  1 < ((c.spread : Int) - (last.spread : Int)).natAbs

/-- The update gate of updateLEDPattern: the candidate parameters are
applied, and snapshot and timestamp refreshed, only when some per-field
threshold is exceeded AND strictly more than MIN_UPDATE_INTERVAL ms have
passed since the last applied change.  The Bool reports whether the pattern
was re-rendered (captureCurrentState, gentleGlow, startTransition). -/
def updateLEDPatternGate (c : Params) (now : Nat) (s : MapperState) :
    MapperState × Bool :=
  if significantChange c s.last then
    if MIN_UPDATE_INTERVAL < now - s.lastPatternChange then
      ({ last := c, lastPatternChange := now }, true)
    else (s, false)
  else (s, false)

lemma significantChange_iff (c l : Params) :
    significantChange c l = true ↔
      (5 < ((c.hue : Int) - (l.hue : Int)).natAbs ∨
       8 < ((c.brightness : Int) - (l.brightness : Int)).natAbs ∨
       5 < ((c.speed : Int) - (l.speed : Int)).natAbs ∨
       1 < ((c.spread : Int) - (l.spread : Int)).natAbs) := by
  simp [significantChange, or_assoc]

lemma significantChange_self (c : Params) : significantChange c c = false := by
  simp [significantChange]

/-- Claim C8: the gate emits an update exactly when some per-field
difference from the last-applied snapshot exceeds its threshold (hue 5,
brightness 8, speed 5, spread 1) AND strictly more than MIN_UPDATE_INTERVAL
= 250 ms have elapsed since the last applied change; on emission the
snapshot and timestamp become the candidate and current time; without
emission the state is untouched; and an immediate repeat of the same call
at the same instant never emits. -/
theorem parameter_update_gate (c : Params) (now : Nat) (s : MapperState)
    (hclock : s.lastPatternChange ≤ now) :
    ((updateLEDPatternGate c now s).2 = true ↔
      ((5 < ((c.hue : Int) - (s.last.hue : Int)).natAbs ∨
        8 < ((c.brightness : Int) - (s.last.brightness : Int)).natAbs ∨
        5 < ((c.speed : Int) - (s.last.speed : Int)).natAbs ∨
        1 < ((c.spread : Int) - (s.last.spread : Int)).natAbs) ∧
       MIN_UPDATE_INTERVAL < now - s.lastPatternChange)) ∧
    ((updateLEDPatternGate c now s).2 = true →
      (updateLEDPatternGate c now s).1 =
        { last := c, lastPatternChange := now }) ∧
    ((updateLEDPatternGate c now s).2 = false →
      (updateLEDPatternGate c now s).1 = s) ∧
    (updateLEDPatternGate c now ((updateLEDPatternGate c now s).1)).2 = false := by
  by_cases h1 : significantChange c s.last = true
  · by_cases h2 : MIN_UPDATE_INTERVAL < now - s.lastPatternChange
    · have he : updateLEDPatternGate c now s =
          ({ last := c, lastPatternChange := now }, true) := by
        unfold updateLEDPatternGate
        rw [if_pos h1, if_pos h2]
      rw [he]
      refine ⟨?_, fun _ => rfl, fun h => absurd h (by simp), ?_⟩
      · exact ⟨fun _ => ⟨(significantChange_iff c s.last).1 h1, h2⟩, fun _ => rfl⟩
      · simp [updateLEDPatternGate, significantChange_self]
    · have he : updateLEDPatternGate c now s = (s, false) := by
        unfold updateLEDPatternGate
        rw [if_pos h1, if_neg h2]
      rw [he]
      refine ⟨?_, fun h => absurd h (by simp), fun _ => rfl, ?_⟩
      · constructor
        · intro h
          exact absurd h (by simp)
        · rintro ⟨hd, ht⟩
          exact absurd ht h2
      · unfold updateLEDPatternGate
        rw [if_pos h1, if_neg h2]
  · have he : updateLEDPatternGate c now s = (s, false) := by
      unfold updateLEDPatternGate
      rw [if_neg h1]
    rw [he]
    refine ⟨?_, fun h => absurd h (by simp), fun _ => rfl, ?_⟩
    · constructor
      · intro h
        exact absurd h (by simp)
      · rintro ⟨hd, ht⟩
        exact absurd ((significantChange_iff c s.last).2 hd) h1
    · unfold updateLEDPatternGate
      rw [if_neg h1]

/-- Witness for C8: a concrete emitting call (large parameter jump, 300 ms
after the last change, at or after the last change time). -/
theorem parameter_update_gate_witness :
    ((updateLEDPatternGate (Params.mk 100 200 90 7) 300
        (MapperState.mk (Params.mk 160 80 20 3) 0)).2 = true ↔
      ((5 < (((Params.mk 100 200 90 7).hue : Int) -
          ((MapperState.mk (Params.mk 160 80 20 3) 0).last.hue : Int)).natAbs ∨
        8 < (((Params.mk 100 200 90 7).brightness : Int) -
          ((MapperState.mk (Params.mk 160 80 20 3) 0).last.brightness : Int)).natAbs ∨
        5 < (((Params.mk 100 200 90 7).speed : Int) -
          ((MapperState.mk (Params.mk 160 80 20 3) 0).last.speed : Int)).natAbs ∨
        1 < (((Params.mk 100 200 90 7).spread : Int) -
          ((MapperState.mk (Params.mk 160 80 20 3) 0).last.spread : Int)).natAbs) ∧
       MIN_UPDATE_INTERVAL <
         300 - (MapperState.mk (Params.mk 160 80 20 3) 0).lastPatternChange)) ∧
    ((updateLEDPatternGate (Params.mk 100 200 90 7) 300
        (MapperState.mk (Params.mk 160 80 20 3) 0)).2 = true →
      (updateLEDPatternGate (Params.mk 100 200 90 7) 300
        (MapperState.mk (Params.mk 160 80 20 3) 0)).1 =
        { last := Params.mk 100 200 90 7, lastPatternChange := 300 }) ∧
    ((updateLEDPatternGate (Params.mk 100 200 90 7) 300
        (MapperState.mk (Params.mk 160 80 20 3) 0)).2 = false →
      (updateLEDPatternGate (Params.mk 100 200 90 7) 300
        (MapperState.mk (Params.mk 160 80 20 3) 0)).1 =
        MapperState.mk (Params.mk 160 80 20 3) 0) ∧
    (updateLEDPatternGate (Params.mk 100 200 90 7) 300
      ((updateLEDPatternGate (Params.mk 100 200 90 7) 300
        (MapperState.mk (Params.mk 160 80 20 3) 0)).1)).2 = false :=
  parameter_update_gate (Params.mk 100 200 90 7) 300
    (MapperState.mk (Params.mk 160 80 20 3) 0) (by decide)

/-- SMOOTHING_FACTOR from main.cpp (0.1, modelled exactly). -/
def SMOOTHING_FACTOR : ℚ := 1 / 10

/-- One exponential-smoothing update from updateLEDPattern:
smoothed = alpha * new + (1 - alpha) * smoothed. -/
def smoothStep (alpha prior newIntensity : ℚ) : ℚ :=
  alpha * newIntensity + (1 - alpha) * prior

/-- Counterexample to claim C9: with the code smoothing factor 0.1, which
lies in the open interval (0, 1), and equal prior and new values 5, the
update returns 5, which does not lie strictly between 5 and 5: the claim
fails when the prior smoothed value equals the new intensity. -/
theorem smoothing_between_counterexample :
    (0 : ℚ) < SMOOTHING_FACTOR ∧ SMOOTHING_FACTOR < 1 ∧
    smoothStep SMOOTHING_FACTOR 5 5 = 5 ∧
    ¬(min (5 : ℚ) 5 < smoothStep SMOOTHING_FACTOR 5 5 ∧
      smoothStep SMOOTHING_FACTOR 5 5 < max (5 : ℚ) 5) := by
  have he : smoothStep SMOOTHING_FACTOR 5 5 = 5 := by
    norm_num [smoothStep, SMOOTHING_FACTOR]
  refine ⟨by norm_num [SMOOTHING_FACTOR], by norm_num [SMOOTHING_FACTOR], he, ?_⟩
  rintro ⟨hlt, _⟩
  rw [he, min_self] at hlt
  exact absurd hlt (lt_irrefl 5)

/-- Claim C9 as amended: one smoothing update produces
alpha * new + (1 - alpha) * prior, and for alpha in the open interval (0, 1)
the result lies strictly between the prior smoothed value and the new
intensity whenever the two differ (when they are equal the result equals
both). -/
theorem smoothing_strict_between (alpha s x : ℚ)
    (h0 : 0 < alpha) (h1 : alpha < 1) (hne : s ≠ x) :
    min s x < smoothStep alpha s x ∧ smoothStep alpha s x < max s x := by
  unfold smoothStep
  rcases lt_or_gt_of_ne hne with h | h
  · rw [min_eq_left h.le, max_eq_right h.le]
    constructor
    · have hp := mul_pos h0 (sub_pos.mpr h)
      nlinarith
    · have hp := mul_pos (sub_pos.mpr h1) (sub_pos.mpr h)
      nlinarith
  · rw [min_eq_right h.le, max_eq_left h.le]
    constructor
    · have hp := mul_pos (sub_pos.mpr h1) (sub_pos.mpr h)
      nlinarith
    · have hp := mul_pos h0 (sub_pos.mpr h)
      nlinarith

/-- Witness for C9 (amended): the code factor 0.1 with prior 0 and new
intensity 10 gives 1, strictly between 0 and 10. -/
theorem smoothing_strict_between_witness :
    min (0 : ℚ) 10 < smoothStep SMOOTHING_FACTOR 0 10 ∧
    smoothStep SMOOTHING_FACTOR 0 10 < max (0 : ℚ) 10 :=
  smoothing_strict_between SMOOTHING_FACTOR 0 10
    (by norm_num [SMOOTHING_FACTOR]) (by norm_num [SMOOTHING_FACTOR]) (by norm_num)

end ReactiveLeds
